import Mathlib

/-!
Shallow embedding of the subscription lifecycle and notification dispatch
subsystem of the openstatus repository
(packages/subscriptions/src/service.ts, dispatcher.ts, channels/email.ts,
channels/webhook.ts, and the page_subscriber schema), together with proofs
of the specified properties.

Conventions of the embedding:
- timestamps are `Nat` milliseconds (JS `Date` values; `Date.now()` is an
  explicit `now` parameter);
- SQL NULL / absent JS object fields are `Option.none`;
- `crypto.randomUUID()` is an explicit `freshToken` parameter;
- fallible operations are state-passing: they return the (possibly
  updated) database together with `Except String α`, where `.error`
  models a thrown exception (the message is the JS `Error` message);
- outbound I/O (the email client batch call, one webhook POST) is an
  oracle (`World`) assigning an `Except String Unit` outcome to each send.
-/

namespace OpenStatus

/-- `VERIFICATION_EXPIRY_MS` from service.ts: 7 days in milliseconds. -/
def VERIFICATION_EXPIRY_MS : Nat := 7 * 24 * 60 * 60 * 1000

/-- Embedding of JS `String.prototype.toLowerCase` on one character
(basic-latin case mapping, as exercised by the code's ASCII identities):
`Char.toLower` from core. -/
def lowerChar (c : Char) : Char := Char.toLower c

/-- Embedding of JS `String.prototype.toLowerCase`: character-wise
lower-casing of the string's characters. -/
def lowerStr (s : String) : String := String.mk (s.data.map lowerChar)

theorem lowerChar_idem (c : Char) : lowerChar (lowerChar c) = lowerChar c := by
  unfold lowerChar Char.toLower
  by_cases h : c.toNat ≥ 65 ∧ c.toNat ≤ 90
  · have hvalid : (c.toNat + 32).isValidChar := by
      left
      have : c.toNat ≤ 90 := h.2
      omega
    have htn : (Char.ofNat (c.toNat + 32)).toNat = c.toNat + 32 := by
      rw [Char.ofNat, dif_pos hvalid]
      simp [Char.ofNatAux, Char.toNat, UInt32.toNat]
    simp only [h, and_self, if_true]
    rw [htn]
    have hn : ¬(c.toNat + 32 ≥ 65 ∧ c.toNat + 32 ≤ 90) := by omega
    rw [if_neg hn]
  · simp [h]

theorem lowerStr_idem (s : String) : lowerStr (lowerStr s) = lowerStr s := by
  unfold lowerStr
  simp [List.map_map, Function.comp_def, lowerChar_idem]

/-- A row of the `page` table (the columns the subsystem reads). -/
structure PageRow where
  id : Nat
  title : String
  slug : String
  customDomain : Option String
deriving Repr, DecidableEq

/-- A row of the `page_component` table (the columns the subsystem reads). -/
structure PageComponentRow where
  id : Nat
  pageId : Nat
  name : String
deriving Repr, DecidableEq

/-- A row of the `page_subscriber` table (page_subscribers.ts). -/
structure SubscriberRow where
  id : Nat
  email : Option String
  pageId : Nat
  channelType : String
  webhookUrl : Option String
  channelConfig : Option String
  token : Option String
  acceptedAt : Option Nat
  expiresAt : Option Nat
  unsubscribedAt : Option Nat
  createdAt : Option Nat
  updatedAt : Option Nat
deriving Repr, DecidableEq

/-- The relational store visible to the subsystem.  `subComponents` is the
`page_subscriber_to_page_component` join table (subscriberId, componentId);
`nextId` models the autoincrement id source for `page_subscriber`. -/
structure DB where
  pages : List PageRow
  components : List PageComponentRow
  subscribers : List SubscriberRow
  subComponents : List (Nat × Nat)
  nextId : Nat
deriving Repr, DecidableEq

/-- The `Subscription` projection returned by the service / built by the
dispatcher (fields absent from a branch's object literal are `none`). -/
structure Subscription where
  id : Nat
  pageId : Nat
  pageName : String
  pageSlug : String
  customDomain : Option String
  channelType : String
  email : Option String
  webhookUrl : Option String
  channelConfig : Option String
  token : Option String
  acceptedAt : Option Nat
  unsubscribedAt : Option Nat
  componentIds : List Nat
deriving Repr, DecidableEq

/-- The canonical `PageUpdate` event record (types.ts). -/
structure PageUpdate where
  id : Nat
  pageId : Nat
  title : String
  status : String
  message : String
  pageComponentIds : List Nat
  pageComponents : List String
  date : String
deriving Repr, DecidableEq

/-- JS `[...new Set(l)]`: deduplicate keeping the first occurrence of each
element, preserving insertion order. -/
def dedupFirst {α : Type} [DecidableEq α] : List α → List α
  | [] => []
  | x :: xs => x :: dedupFirst (xs.filter (fun y => decide (y ≠ x)))
termination_by l => l.length
decreasing_by
  simp only [List.length_cons]
  exact Nat.lt_succ_of_le (List.length_filter_le _ _)

theorem mem_dedupFirst {α : Type} [DecidableEq α] (a : α) :
    ∀ l : List α, a ∈ dedupFirst l ↔ a ∈ l := by
  intro l
  induction l using dedupFirst.induct with
  | case1 => simp [dedupFirst]
  | case2 x xs ih =>
    rw [dedupFirst]
    by_cases hax : a = x
    · subst hax; simp
    · simp only [List.mem_cons, ih, List.mem_filter, decide_eq_true_eq]
      constructor
      · rintro (h | ⟨h, _⟩)
        · exact Or.inl h
        · exact Or.inr h
      · rintro (h | h)
        · exact Or.inl h
        · exact Or.inr ⟨h, by simpa using hax⟩

theorem nodup_dedupFirst {α : Type} [DecidableEq α] :
    ∀ l : List α, (dedupFirst l).Nodup := by
  intro l
  induction l using dedupFirst.induct with
  | case1 => simp [dedupFirst]
  | case2 x xs ih =>
    rw [dedupFirst]
    refine List.nodup_cons.mpr ⟨?_, ih⟩
    intro hx
    rw [mem_dedupFirst] at hx
    have := (List.mem_filter.mp hx).2
    simp at this

/-- `existing.components.map((c) => c.pageComponentId)`: the component ids
associated with a subscriber row, in join-table order. -/
def componentIdsOf (db : DB) (sid : Nat) : List Nat :=
  (db.subComponents.filter (fun l => decide (l.1 = sid))).map (fun l => l.2)

/-- `db.query.pageSubscriber.findFirst` with the active-email predicate of
upsertEmailSubscription (service.ts lines 82-92): exact match on the
lowercased email, pageId, channelType "email", unsubscribedAt IS NULL. -/
def findActiveEmail (db : DB) (emailLower : String) (pid : Nat) :
    Option SubscriberRow :=
  db.subscribers.find? (fun r =>
    decide (r.email = some emailLower ∧ r.pageId = pid ∧
      r.channelType = "email" ∧ r.unsubscribedAt = none))

/-- `db.query.pageSubscriber.findFirst({ where: eq(pageSubscriber.token, token) })`. -/
def findByToken (db : DB) (token : String) : Option SubscriberRow :=
  db.subscribers.find? (fun r => decide (r.token = some token))

/-- The `page` relation of a subscriber row (FK `pageId → page.id`). -/
def pageOf (db : DB) (r : SubscriberRow) : Option PageRow :=
  db.pages.find? (fun p => decide (p.id = r.pageId))

/-- `UPDATE page_subscriber ... WHERE id = sid`. -/
def updateRow (db : DB) (sid : Nat) (f : SubscriberRow → SubscriberRow) : DB :=
  { db with subscribers :=
      db.subscribers.map (fun r => if r.id = sid then f r else r) }

/-- The component-validation SELECT (service.ts lines 63-72 and 372-381):
ids of page components of `pid` whose id occurs in `ids`. -/
def validComponentIds (db : DB) (pid : Nat) (ids : List Nat) : List Nat :=
  (db.components.filter (fun c =>
    decide (c.pageId = pid) && ids.contains c.id)).map (fun c => c.id)

/-- The domain check shared by verify/getByToken/updateScope/unsubscribe:
`if (domain) { ... mismatch when lowercased domain equals neither the
page slug nor the custom domain ... }`.  JS truthiness: an empty-string
domain skips the check, and a null `customDomain` never matches. -/
def domainMismatch (pg : PageRow) (domain : Option String) : Bool :=
  match domain with
  | none => false
  | some d =>
    if d = "" then false
    else
      decide (lowerStr d ≠ lowerStr pg.slug) &&
        decide (some (lowerStr d) ≠ pg.customDomain.map lowerStr)

/-- `Invalid components: ${invalidIds.join(", ")}` (service.ts line 77). -/
def invalidComponentsMsg (validIds ids : List Nat) : String :=
  "Invalid components: " ++
    String.intercalate ", "
      ((ids.filter (fun i => !validIds.contains i)).map toString)

/-- `upsertEmailSubscription` (service.ts lines 48-197).  `now` is
`Date.now()`, `freshToken` is `crypto.randomUUID()`.  Returns the possibly
updated store and either the returned projection or the thrown error. -/
def upsertEmailSubscription (db : DB) (now : Nat) (freshToken : String)
    (email : String) (pageId : Nat) (componentIds : List Nat) :
    DB × Except String Subscription :=
  match db.pages.find? (fun p => decide (p.id = pageId)) with
  | none => (db, .error ("Page " ++ toString pageId ++ " not found"))
  | some pageData =>
    let validIds := validComponentIds db pageId componentIds
    if componentIds.length ≠ 0 ∧ validIds.length ≠ componentIds.length then
      (db, .error (invalidComponentsMsg validIds componentIds))
    else
      match findActiveEmail db (lowerStr email) pageId with
      | some existing =>
        if existing.acceptedAt.isSome then
          -- Already verified: returned as-is, no write.
          (db, .ok
            { id := existing.id
              pageId := existing.pageId
              pageName := pageData.title
              pageSlug := pageData.slug
              customDomain := pageData.customDomain
              channelType := existing.channelType
              email := existing.email
              webhookUrl := none
              channelConfig := none
              token := existing.token
              acceptedAt := existing.acceptedAt
              unsubscribedAt := none
              componentIds := componentIdsOf db existing.id })
        else
          -- Pending: merge components, refresh expiry.
          let currentIds := componentIdsOf db existing.id
          let mergedIds := dedupFirst (currentIds ++ componentIds)
          let newIds := mergedIds.filter (fun i => !currentIds.contains i)
          let db1 : DB :=
            { db with subComponents :=
                db.subComponents ++ newIds.map (fun c => (existing.id, c)) }
          let db2 := updateRow db1 existing.id (fun r =>
            { r with expiresAt := some (now + VERIFICATION_EXPIRY_MS)
                     updatedAt := some now })
          (db2, .ok
            { id := existing.id
              pageId := existing.pageId
              pageName := pageData.title
              pageSlug := pageData.slug
              customDomain := pageData.customDomain
              channelType := existing.channelType
              email := existing.email
              webhookUrl := none
              channelConfig := none
              token := existing.token
              acceptedAt := none
              unsubscribedAt := none
              componentIds := mergedIds })
      | none =>
        -- No active subscription: create a new row (transaction).
        let sub : SubscriberRow :=
          { id := db.nextId
            email := some (lowerStr email)
            pageId := pageId
            channelType := "email"
            webhookUrl := none
            channelConfig := none
            token := some freshToken
            acceptedAt := none
            expiresAt := some (now + VERIFICATION_EXPIRY_MS)
            unsubscribedAt := none
            createdAt := some now
            updatedAt := some now }
        let db1 : DB :=
          { db with subscribers := db.subscribers ++ [sub]
                    subComponents :=
                      db.subComponents ++
                        componentIds.map (fun c => (sub.id, c))
                    nextId := db.nextId + 1 }
        (db1, .ok
          { id := sub.id
            pageId := sub.pageId
            pageName := pageData.title
            pageSlug := pageData.slug
            customDomain := pageData.customDomain
            channelType := "email"
            email := sub.email
            webhookUrl := none
            channelConfig := none
            token := sub.token
            acceptedAt := none
            unsubscribedAt := none
            componentIds := componentIds })

/-- `verifySubscription` (service.ts lines 202-270).  `.ok none` is the
not-found sentinel (`return null`); the missing-page branch models the JS
TypeError that reading `subscription.page.slug` of an absent relation
would raise (unreachable under the schema's foreign key). -/
def verifySubscription (db : DB) (now : Nat) (token : String)
    (domain : Option String) : DB × Except String (Option Subscription) :=
  match findByToken db token with
  | none => (db, .ok none)
  | some sub =>
    match pageOf db sub with
    | none => (db, .error "TypeError: page relation missing")
    | some pg =>
      if domainMismatch pg domain then (db, .ok none)
      else if sub.acceptedAt.isSome then
        (db, .ok (some
          { id := sub.id
            pageId := sub.pageId
            pageName := pg.title
            pageSlug := pg.slug
            customDomain := pg.customDomain
            channelType := sub.channelType
            email := sub.email
            webhookUrl := sub.webhookUrl
            channelConfig := none
            token := sub.token
            acceptedAt := sub.acceptedAt
            unsubscribedAt := sub.unsubscribedAt
            componentIds := componentIdsOf db sub.id }))
      else if (match sub.expiresAt with
               | some e => decide (e < now)
               | none => false) then
        (db, .error "Verification token expired")
      else
        let db1 := updateRow db sub.id (fun r =>
          { r with acceptedAt := some now, updatedAt := some now })
        (db1, .ok (some
          { id := sub.id
            pageId := sub.pageId
            pageName := pg.title
            pageSlug := pg.slug
            customDomain := pg.customDomain
            channelType := sub.channelType
            email := sub.email
            webhookUrl := sub.webhookUrl
            channelConfig := none
            token := sub.token
            acceptedAt := some now
            unsubscribedAt := none
            componentIds := componentIdsOf db sub.id }))

/-- `updateSubscriptionScope` (service.ts lines 336-427): full replace of
the component-association set after the existence / domain / verified /
not-unsubscribed / component-validity checks. -/
def updateSubscriptionScope (db : DB) (now : Nat) (token : String)
    (componentIds : List Nat) (domain : Option String) :
    DB × Except String Subscription :=
  match findByToken db token with
  | none => (db, .error "Subscription not found")
  | some sub =>
    match pageOf db sub with
    | none => (db, .error "TypeError: page relation missing")
    | some pg =>
      if domainMismatch pg domain then
        (db, .error "Subscription not found")
      else if sub.acceptedAt.isNone then
        (db, .error "Subscription not yet verified")
      else if sub.unsubscribedAt.isSome then
        (db, .error "Subscription is unsubscribed")
      else
        let validIds := validComponentIds db sub.pageId componentIds
        if componentIds.length ≠ 0 ∧
            validIds.length ≠ componentIds.length then
          (db, .error "Some components do not belong to this page")
        else
          let db1 : DB :=
            { db with subComponents :=
                db.subComponents.filter (fun l => decide (l.1 ≠ sub.id)) ++
                  componentIds.map (fun c => (sub.id, c)) }
          let db2 := updateRow db1 sub.id (fun r =>
            { r with updatedAt := some now })
          (db2, .ok
            { id := sub.id
              pageId := sub.pageId
              pageName := pg.title
              pageSlug := pg.slug
              customDomain := pg.customDomain
              channelType := sub.channelType
              email := sub.email
              webhookUrl := none
              channelConfig := none
              token := sub.token
              acceptedAt := sub.acceptedAt
              unsubscribedAt := none
              componentIds := componentIds })

/-- `unsubscribe` (service.ts lines 432-463): idempotent terminal
transition; already-unsubscribed rows return silently with no write. -/
def unsubscribe (db : DB) (now : Nat) (token : String)
    (domain : Option String) : DB × Except String Unit :=
  match findByToken db token with
  | none => (db, .error "Subscription not found")
  | some sub =>
    match pageOf db sub with
    | none => (db, .error "TypeError: page relation missing")
    | some pg =>
      if domainMismatch pg domain then
        (db, .error "Subscription not found")
      else if sub.unsubscribedAt.isSome then
        (db, .ok ())
      else
        (updateRow db sub.id (fun r =>
          { r with unsubscribedAt := some now, updatedAt := some now }),
         .ok ())

/-- Outcome oracle for outbound I/O: the email provider's batched send
(channels/email.ts `client.sendStatusReportUpdate`, including a throwing
`getEmailClient`) and a single webhook POST (channels/webhook.ts `fetch`,
where `.error` covers network errors, timeouts and non-2xx responses). -/
structure World where
  emailBatch : List Subscription → PageUpdate → Except String Unit
  webhookPost : Subscription → PageUpdate → Except String Unit

/-- `hasEmailAndToken` (channels/email.ts). -/
def hasEmailAndToken (s : Subscription) : Bool :=
  s.email.isSome && s.token.isSome

/-- `hasWebhookUrl` (channels/webhook.ts). -/
def hasWebhookUrl (s : Subscription) : Bool :=
  s.webhookUrl.isSome

/-- `sendEmailNotifications` (channels/email.ts lines 52-80): may raise
(the returned `Except` is the email provider call's outcome). -/
def sendEmailNotifications (w : World) (subs : List Subscription)
    (ev : PageUpdate) : Except String Unit :=
  if subs.isEmpty then .ok ()
  else
    let valid := subs.filter hasEmailAndToken
    if valid.isEmpty then .ok ()
    else w.emailBatch valid ev

/-- `sendWebhookNotifications` (channels/webhook.ts lines 52-122): one
POST per valid subscriber under `Promise.allSettled`, so every valid
subscriber's POST is issued and the function itself never rejects; the
result is the settled per-subscriber outcome list `(subscriber id,
POST outcome)`. -/
def sendWebhookNotifications (w : World) (subs : List Subscription)
    (ev : PageUpdate) : List (Nat × Except String Unit) :=
  let valid := subs.filter hasWebhookUrl
  if valid.isEmpty then []
  else valid.map (fun s => (s.id, w.webhookPost s ev))

/-- Modelled from the spec: the channel registry `getChannel`
(channels/index.ts is absent from the repository snapshot; only its test
and its callers are present): "email" resolves to the email channel,
"webhook" to the webhook channel, anything else to none.  Each channel is
represented by its `sendNotifications` capability; the webhook channel
awaits its settled batch and returns normally. -/
def getChannel (w : World) (t : String) :
    Option (List Subscription → PageUpdate → Except String Unit) :=
  if t = "email" then some (fun subs ev => sendEmailNotifications w subs ev)
  else if t = "webhook" then
    some (fun subs ev =>
      let results := sendWebhookNotifications w subs ev
      .ok (results.foldl (fun u _ => u) ()))
  else none

/-- Result of one channel group inside `dispatchPageUpdate`'s
`Promise.allSettled` fan-out: unknown channel type logged and skipped,
a send failure caught and logged, a success logged with its count. -/
inductive ChannelResult where
  | skippedUnknown : ChannelResult
  | sent : Nat → ChannelResult
  | failedCaught : String → ChannelResult
deriving Repr, DecidableEq

/-- Overall result of `dispatchPageUpdate` (which of its early-return /
fan-out paths was taken, with the per-channel log). -/
inductive DispatchResult where
  | pageNotFound : DispatchResult
  | noMatches : DispatchResult
  | dispatched : List (String × ChannelResult) → DispatchResult
deriving Repr, DecidableEq

/-- The dispatcher's per-subscriber projection (dispatcher.ts lines
131-144). -/
def toSubscription (pg : PageRow) (db : DB) (r : SubscriberRow) :
    Subscription :=
  { id := r.id
    pageId := r.pageId
    pageName := pg.title
    pageSlug := pg.slug
    customDomain := pg.customDomain
    channelType := r.channelType
    email := r.email
    webhookUrl := r.webhookUrl
    channelConfig := r.channelConfig
    token := r.token
    acceptedAt := r.acceptedAt
    unsubscribedAt := none
    componentIds := componentIdsOf db r.id }

/-- The subscriber load of dispatchPageUpdate (lines 119-128): rows of the
page with `acceptedAt` set and `unsubscribedAt` null. -/
def activePageSubscribers (db : DB) (pid : Nat) : List SubscriberRow :=
  db.subscribers.filter (fun r =>
    decide (r.pageId = pid) && r.acceptedAt.isSome && r.unsubscribedAt.isNone)

/-- The scope filter of dispatchPageUpdate (lines 145-151): empty
`componentIds` matches everything, otherwise some affected component id
must occur in the subscriber's scope. -/
def matchesScope (affected : List Nat) (s : Subscription) : Bool :=
  s.componentIds.isEmpty || affected.any (fun i => s.componentIds.contains i)

/-- `matchingSubscriptions` (dispatcher.ts lines 130-151): map active
subscriber rows to projections, then filter by scope. -/
def matchingSubscriptions (db : DB) (pg : PageRow) (ev : PageUpdate) :
    List Subscription :=
  ((activePageSubscribers db ev.pageId).map (toSubscription pg db)).filter
    (matchesScope ev.pageComponentIds)

/-- `byChannel` (dispatcher.ts lines 158-167): group by channelType,
groups ordered by first occurrence (JS object insertion order), each
group in subscription order. -/
def groupByChannel (subs : List Subscription) :
    List (String × List Subscription) :=
  (dedupFirst (subs.map (fun s => s.channelType))).map (fun t =>
    (t, subs.filter (fun s => decide (s.channelType = t))))

/-- One entry of the dispatcher's `Promise.allSettled` fan-out (lines
170-186): resolve the channel, skip unknown types, try the send and
catch its failure. -/
def handleGroup (w : World) (ev : PageUpdate) (t : String)
    (subs : List Subscription) : ChannelResult :=
  match getChannel w t with
  | none => .skippedUnknown
  | some send =>
    match send subs ev with
    | .ok _ => .sent subs.length
    | .error e => .failedCaught e

/-- `dispatchPageUpdate` (dispatcher.ts lines 100-188).  An `.error`
result would model an exception escaping to the caller. -/
def dispatchPageUpdate (db : DB) (w : World) (ev : PageUpdate) :
    Except String DispatchResult :=
  match db.pages.find? (fun p => decide (p.id = ev.pageId)) with
  | none => .ok .pageNotFound
  | some pg =>
    let matching := matchingSubscriptions db pg ev
    if matching.isEmpty then .ok .noMatches
    else
      .ok (.dispatched ((groupByChannel matching).map (fun g =>
        (g.1, handleGroup w ev g.1 g.2))))

theorem pairs_filter_map (sid : Nat) (ids : List Nat) :
    ((ids.map (fun c => (sid, c))).filter
      (fun l => decide (l.1 = sid))).map (fun l => l.2) = ids := by
  induction ids with
  | nil => rfl
  | cons x xs ih => simpa using ih

theorem componentIdsOf_append (db : DB) (pairs : List (Nat × Nat)) (sid : Nat) :
    componentIdsOf { db with subComponents := db.subComponents ++ pairs } sid =
      componentIdsOf db sid ++
        ((pairs.filter (fun l => decide (l.1 = sid))).map (fun l => l.2)) := by
  simp [componentIdsOf, List.filter_append]

theorem componentIdsOf_updateRow (db : DB) (sid tid : Nat)
    (f : SubscriberRow → SubscriberRow) :
    componentIdsOf (updateRow db tid f) sid = componentIdsOf db sid := rfl

/-- C1: for every page update event, the dispatcher's subscriber selection
consists exactly of the projections of the page's rows with `acceptedAt`
set and `unsubscribedAt` null whose component set is empty or meets the
affected-component ids; a selected subscription with non-empty scope
always intersects the affected set. -/
theorem c1_matching_characterization (db : DB) (pg : PageRow)
    (ev : PageUpdate) :
    (∀ s : Subscription,
      s ∈ matchingSubscriptions db pg ev ↔
        ∃ r ∈ db.subscribers,
          r.pageId = ev.pageId ∧ r.acceptedAt.isSome = true ∧
            r.unsubscribedAt = none ∧ s = toSubscription pg db r ∧
            (componentIdsOf db r.id = [] ∨
              ∃ c ∈ ev.pageComponentIds, c ∈ componentIdsOf db r.id))
    ∧ ∀ s ∈ matchingSubscriptions db pg ev,
        s.componentIds ≠ [] →
          ∃ c ∈ ev.pageComponentIds, c ∈ s.componentIds := by
  have hchar : ∀ s : Subscription,
      s ∈ matchingSubscriptions db pg ev ↔
        ∃ r ∈ db.subscribers,
          r.pageId = ev.pageId ∧ r.acceptedAt.isSome = true ∧
            r.unsubscribedAt = none ∧ s = toSubscription pg db r ∧
            (componentIdsOf db r.id = [] ∨
              ∃ c ∈ ev.pageComponentIds, c ∈ componentIdsOf db r.id) := by
    intro s
    simp only [matchingSubscriptions, activePageSubscribers, List.mem_filter,
      List.mem_map, matchesScope, Bool.and_eq_true, decide_eq_true_eq,
      Option.isNone_iff_eq_none, Bool.or_eq_true, List.isEmpty_iff,
      List.any_eq_true]
    constructor
    · rintro ⟨⟨r, ⟨hr, ⟨hpid, hacc⟩, huns⟩, rfl⟩, hmatch⟩
      refine ⟨r, hr, hpid, hacc, huns, rfl, ?_⟩
      rcases hmatch with h | ⟨c, hc, hmem⟩
      · exact Or.inl h
      · refine Or.inr ⟨c, hc, ?_⟩
        simpa [toSubscription] using hmem
    · rintro ⟨r, hr, hpid, hacc, huns, rfl, hmatch⟩
      refine ⟨⟨r, ⟨hr, ⟨hpid, hacc⟩, huns⟩, rfl⟩, ?_⟩
      rcases hmatch with h | ⟨c, hc, hmem⟩
      · exact Or.inl h
      · refine Or.inr ⟨c, hc, ?_⟩
        simpa [toSubscription] using hmem
  refine ⟨hchar, ?_⟩
  intro s hs hne
  rcases (hchar s).mp hs with ⟨r, _, _, _, _, rfl, hmatch⟩
  rcases hmatch with h | h
  · exact absurd h hne
  · exact h

/-- Fixture page for the concrete witnesses. -/
def exPage : PageRow :=
  { id := 1, title := "P", slug := "p", customDomain := some "Status.Example.com" }

/-- Fixture components for the concrete witnesses. -/
def exComp1 : PageComponentRow := { id := 10, pageId := 1, name := "C1" }

/-- Fixture components for the concrete witnesses. -/
def exComp2 : PageComponentRow := { id := 11, pageId := 1, name := "C2" }

/-- Fixture subscriber A: accepted, entire-page scope. -/
def exRowA : SubscriberRow :=
  { id := 100, email := some "a@x.com", pageId := 1, channelType := "email",
    webhookUrl := none, channelConfig := none, token := some "tA",
    acceptedAt := some 5, expiresAt := some 999, unsubscribedAt := none,
    createdAt := some 1, updatedAt := some 1 }

/-- Fixture subscriber B: accepted, scope = component 10. -/
def exRowB : SubscriberRow :=
  { exRowA with id := 101, email := some "b@x.com", token := some "tB" }

/-- Fixture subscriber C: accepted, scope = component 11. -/
def exRowC : SubscriberRow :=
  { exRowA with id := 102, email := some "c@x.com", token := some "tC" }

/-- Fixture store for the concrete witnesses. -/
def exDb : DB :=
  { pages := [exPage], components := [exComp1, exComp2],
    subscribers := [exRowA, exRowB, exRowC],
    subComponents := [(101, 10), (102, 11)], nextId := 200 }

/-- Fixture event affecting component 10. -/
def exEvent : PageUpdate :=
  { id := 7, pageId := 1, title := "t", status := "investigating",
    message := "m", pageComponentIds := [10], pageComponents := ["C1"],
    date := "d" }

theorem c1_matching_characterization_witness :
    ∃ c ∈ exEvent.pageComponentIds,
      c ∈ (toSubscription exPage exDb exRowB).componentIds := by
  have h := (c1_matching_characterization exDb exPage exEvent).2
    (toSubscription exPage exDb exRowB) (by decide) (by decide)
  exact h

/-- C10: verifySubscription never checks `unsubscribedAt`: for a pending,
unexpired, unsubscribed row the token (with matching domain) does not hit
the not-found sentinel or an error — the row's acceptedAt is set to `now`
while unsubscribedAt stays set, and the accepted projection is returned. -/
theorem c10_verify_ignores_unsubscribed (db : DB) (now : Nat)
    (token : String) (domain : Option String) (sub : SubscriberRow)
    (pg : PageRow) (u ex : Nat)
    (hfind : findByToken db token = some sub)
    (hpg : pageOf db sub = some pg)
    (hdom : domainMismatch pg domain = false)
    (hacc : sub.acceptedAt = none)
    (huns : sub.unsubscribedAt = some u)
    (hexp : sub.expiresAt = some ex)
    (hfut : ¬ ex < now) :
    (∃ v, (verifySubscription db now token domain).2 = .ok (some v) ∧
      v.acceptedAt = some now) ∧
    ∃ r ∈ (verifySubscription db now token domain).1.subscribers,
      r.id = sub.id ∧ r.acceptedAt = some now ∧
        r.unsubscribedAt = some u := by
  have hmem : sub ∈ db.subscribers := List.mem_of_find?_eq_some hfind
  have hd : decide (ex < now) = false := by simpa using hfut
  simp only [verifySubscription, hfind, hpg, hdom, Bool.false_eq_true,
    if_false, hacc, Option.isSome_none, hexp, hd]
  refine ⟨⟨_, rfl, rfl⟩, ?_⟩
  refine ⟨{ sub with acceptedAt := some now, updatedAt := some now },
    ?_, rfl, rfl, huns⟩
  simp only [updateRow, List.mem_map]
  exact ⟨sub, hmem, by simp⟩

/-- Fixture row for the C10 witness: pending, unexpired, unsubscribed. -/
def exRowUnsub : SubscriberRow :=
  { exRowA with
      acceptedAt := none
      unsubscribedAt := some 42
      expiresAt := some 5000 }

/-- Fixture store for the C10 witness. -/
def exDbUnsub : DB :=
  { pages := [exPage], components := [], subscribers := [exRowUnsub],
    subComponents := [], nextId := 300 }

theorem c10_verify_ignores_unsubscribed_witness :
    (∃ v, (verifySubscription exDbUnsub 1000 "tA" (some "p")).2 =
        .ok (some v) ∧ v.acceptedAt = some 1000) ∧
    ∃ r ∈ (verifySubscription exDbUnsub 1000 "tA" (some "p")).1.subscribers,
      r.id = exRowUnsub.id ∧ r.acceptedAt = some 1000 ∧
        r.unsubscribedAt = some 42 := by
  exact c10_verify_ignores_unsubscribed exDbUnsub 1000 "tA" (some "p")
    exRowUnsub exPage 42 5000 (by decide) (by decide) (by decide)
    (by decide) (by decide) (by decide) (by decide)

theorem findByToken_updateRow (db : DB) (sid : Nat)
    (f : SubscriberRow → SubscriberRow)
    (hf : ∀ r, (f r).token = r.token) (token : String) :
    findByToken (updateRow db sid f) token =
      (findByToken db token).map (fun r => if r.id = sid then f r else r) := by
  unfold findByToken updateRow
  rw [List.find?_map]
  have hp : ((fun r : SubscriberRow => decide (r.token = some token)) ∘
      fun r => if r.id = sid then f r else r) =
      fun r : SubscriberRow => decide (r.token = some token) := by
    funext r
    by_cases h : r.id = sid <;> simp [Function.comp, h, hf]
  rw [hp]

theorem pageOf_updateRow (db : DB) (sid : Nat)
    (f : SubscriberRow → SubscriberRow) (r : SubscriberRow) :
    pageOf (updateRow db sid f) r = pageOf db r := rfl

theorem pageOf_eq_of_pageId (db : DB) (r r' : SubscriberRow)
    (h : r'.pageId = r.pageId) : pageOf db r' = pageOf db r := by
  unfold pageOf
  simp [h]

/-- C7: verifySubscription returns the not-found sentinel for an unknown
token and identically (sentinel, no state change) for a mismatched
domain; an accepted row is returned unchanged; a pending expired row
fails with the Expired error; otherwise acceptedAt is set to now and the
updated projection returned. -/
theorem c7_verify_behavior (db : DB) (now : Nat) (token : String)
    (domain : Option String) :
    (findByToken db token = none →
      verifySubscription db now token domain = (db, .ok none))
  ∧ (∀ sub pg, findByToken db token = some sub →
      pageOf db sub = some pg → domainMismatch pg domain = true →
      verifySubscription db now token domain = (db, .ok none))
  ∧ (∀ sub pg a, findByToken db token = some sub →
      pageOf db sub = some pg → domainMismatch pg domain = false →
      sub.acceptedAt = some a →
      (verifySubscription db now token domain).1 = db ∧
      ∃ v, (verifySubscription db now token domain).2 = .ok (some v) ∧
        v.id = sub.id ∧ v.acceptedAt = some a ∧ v.token = sub.token)
  ∧ (∀ sub pg ex, findByToken db token = some sub →
      pageOf db sub = some pg → domainMismatch pg domain = false →
      sub.acceptedAt = none → sub.expiresAt = some ex → ex < now →
      verifySubscription db now token domain =
        (db, .error "Verification token expired"))
  ∧ (∀ sub pg, findByToken db token = some sub →
      pageOf db sub = some pg → domainMismatch pg domain = false →
      sub.acceptedAt = none →
      (sub.expiresAt = none ∨ ∃ ex, sub.expiresAt = some ex ∧ ¬ ex < now) →
      (∃ v, (verifySubscription db now token domain).2 = .ok (some v) ∧
        v.id = sub.id ∧ v.acceptedAt = some now) ∧
      ∀ r ∈ (verifySubscription db now token domain).1.subscribers,
        r.id = sub.id → r.acceptedAt = some now) := by
  refine ⟨?_, ?_, ?_, ?_, ?_⟩
  · intro hfind
    simp [verifySubscription, hfind]
  · intro sub pg hfind hpg hdom
    simp [verifySubscription, hfind, hpg, hdom]
  · intro sub pg a hfind hpg hdom hacc
    refine ⟨by simp [verifySubscription, hfind, hpg, hdom, hacc], ?_⟩
    simp only [verifySubscription, hfind, hpg, hdom, Bool.false_eq_true,
      if_false, hacc, Option.isSome_some, if_true]
    exact ⟨_, rfl, rfl, rfl, rfl⟩
  · intro sub pg ex hfind hpg hdom hacc hexp hlt
    have hd : decide (ex < now) = true := by simpa using hlt
    simp [verifySubscription, hfind, hpg, hdom, hacc, hexp, hd]
  · intro sub pg hfind hpg hdom hacc hexp
    have hd : (match sub.expiresAt with
        | some e => decide (e < now)
        | none => false) = false := by
      rcases hexp with h | ⟨ex, h, hge⟩ <;> simp [h]
      simpa using hge
    simp only [verifySubscription, hfind, hpg, hdom, Bool.false_eq_true,
      if_false, hacc, Option.isSome_none, hd]
    refine ⟨⟨_, rfl, rfl, rfl⟩, ?_⟩
    intro r hr hid
    simp only [updateRow, List.mem_map] at hr
    rcases hr with ⟨r0, _, rfl⟩
    by_cases h0 : r0.id = sub.id
    · simp [h0]
    · simp only [h0, if_false] at hid ⊢

/-- Fixture row for the C7 witness: pending, unexpired at time 1000. -/
def exRowPend : SubscriberRow :=
  { exRowA with
      acceptedAt := none
      expiresAt := some 5000 }

/-- Fixture: a store whose only row is pending and unexpired at time 1000. -/
def exDbPend : DB :=
  { pages := [exPage], components := [], subscribers := [exRowPend],
    subComponents := [], nextId := 300 }

theorem c7_verify_behavior_witness :
    verifySubscription exDbPend 1000 "nope" none = (exDbPend, .ok none) := by
  exact (c7_verify_behavior exDbPend 1000 "nope" none).1 (by decide)

/-- C9: unsubscribe fails with NotFound for an unknown token or a
mismatched domain; it is idempotent and terminal: the first call on an
active row sets unsubscribedAt = now, and a second call with the same
token and domain succeeds silently with no state change at all. -/
theorem c9_unsubscribe_idempotent (db : DB) (now1 now2 : Nat)
    (token : String) (domain : Option String) :
    (findByToken db token = none →
      unsubscribe db now1 token domain =
        (db, .error "Subscription not found"))
  ∧ (∀ sub pg, findByToken db token = some sub →
      pageOf db sub = some pg → domainMismatch pg domain = true →
      unsubscribe db now1 token domain =
        (db, .error "Subscription not found"))
  ∧ (∀ sub pg u, findByToken db token = some sub →
      pageOf db sub = some pg → domainMismatch pg domain = false →
      sub.unsubscribedAt = some u →
      unsubscribe db now1 token domain = (db, .ok ()))
  ∧ (∀ sub pg, findByToken db token = some sub →
      pageOf db sub = some pg → domainMismatch pg domain = false →
      sub.unsubscribedAt = none →
      (unsubscribe db now1 token domain).2 = .ok () ∧
      (∀ r ∈ (unsubscribe db now1 token domain).1.subscribers,
        r.id = sub.id → r.unsubscribedAt = some now1) ∧
      unsubscribe (unsubscribe db now1 token domain).1 now2 token domain =
        ((unsubscribe db now1 token domain).1, .ok ())) := by
  refine ⟨?_, ?_, ?_, ?_⟩
  · intro hfind
    simp [unsubscribe, hfind]
  · intro sub pg hfind hpg hdom
    simp [unsubscribe, hfind, hpg, hdom]
  · intro sub pg u hfind hpg hdom huns
    simp [unsubscribe, hfind, hpg, hdom, huns]
  · intro sub pg hfind hpg hdom huns
    have hstep : unsubscribe db now1 token domain =
        (updateRow db sub.id (fun r =>
          { r with unsubscribedAt := some now1, updatedAt := some now1 }),
         .ok ()) := by
      simp [unsubscribe, hfind, hpg, hdom, huns]
    rw [hstep]
    refine ⟨rfl, ?_, ?_⟩
    · intro r hr hid
      simp only [updateRow, List.mem_map] at hr
      rcases hr with ⟨r0, _, rfl⟩
      by_cases h0 : r0.id = sub.id
      · simp [h0]
      · simp only [h0, if_false] at hid ⊢
    · set f := fun r : SubscriberRow =>
        { r with unsubscribedAt := some now1, updatedAt := some now1 }
        with hfdef
      have hfind2 : findByToken (updateRow db sub.id f) token =
          some (f sub) := by
        rw [findByToken_updateRow db sub.id f (fun r => rfl) token, hfind]
        simp
      have hpg2 : pageOf (updateRow db sub.id f) (f sub) = some pg := by
        rw [pageOf_updateRow, pageOf_eq_of_pageId db sub (f sub) rfl]
        exact hpg
      have hsome2 : (f sub).unsubscribedAt.isSome = true := rfl
      simp [unsubscribe, hfind2, hpg2, hdom, hsome2]

theorem c9_unsubscribe_idempotent_witness :
    (unsubscribe exDb 500 "tA" none).2 = .ok () ∧
    (∀ r ∈ (unsubscribe exDb 500 "tA" none).1.subscribers,
      r.id = exRowA.id → r.unsubscribedAt = some 500) ∧
    unsubscribe (unsubscribe exDb 500 "tA" none).1 600 "tA" none =
      ((unsubscribe exDb 500 "tA" none).1, .ok ()) := by
  exact (c9_unsubscribe_idempotent exDb 500 600 "tA" none).2.2.2 exRowA
    exPage (by decide) (by decide) (by decide) (by decide)

theorem findActiveEmail_subComponents (db : DB) (x : List (Nat × Nat))
    (e : String) (p : Nat) :
    findActiveEmail { db with subComponents := x } e p =
      findActiveEmail db e p := rfl

theorem findActiveEmail_updateRow (db : DB) (sid : Nat)
    (f : SubscriberRow → SubscriberRow)
    (hf : ∀ r, (f r).email = r.email ∧ (f r).pageId = r.pageId ∧
      (f r).channelType = r.channelType ∧
      (f r).unsubscribedAt = r.unsubscribedAt)
    (e : String) (p : Nat) :
    findActiveEmail (updateRow db sid f) e p =
      (findActiveEmail db e p).map
        (fun r => if r.id = sid then f r else r) := by
  unfold findActiveEmail updateRow
  rw [List.find?_map]
  have hp : ((fun r : SubscriberRow =>
      decide (r.email = some e ∧ r.pageId = p ∧
        r.channelType = "email" ∧ r.unsubscribedAt = none)) ∘
      fun r => if r.id = sid then f r else r) =
      fun r : SubscriberRow =>
        decide (r.email = some e ∧ r.pageId = p ∧
          r.channelType = "email" ∧ r.unsubscribedAt = none) := by
    funext r
    by_cases h : r.id = sid <;>
      simp [Function.comp, h, (hf r).1, (hf r).2.1, (hf r).2.2.1,
        (hf r).2.2.2]
  rw [hp]

/-- C5: when the active email subscription for (identity, page) is
already accepted, upsertEmailSubscription leaves the store entirely
unchanged and returns the existing row's projection (same id, token,
acceptedAt, and component set). -/
theorem c5_upsert_accepted_unchanged (db : DB) (now : Nat) (tk : String)
    (email : String) (pageId : Nat) (cids : List Nat) (pg : PageRow)
    (ex : SubscriberRow) (a : Nat)
    (hpg : db.pages.find? (fun p => decide (p.id = pageId)) = some pg)
    (hvalid : ¬(cids.length ≠ 0 ∧
      (validComponentIds db pageId cids).length ≠ cids.length))
    (hfind : findActiveEmail db (lowerStr email) pageId = some ex)
    (hacc : ex.acceptedAt = some a) :
    (upsertEmailSubscription db now tk email pageId cids).1 = db ∧
    ∃ v, (upsertEmailSubscription db now tk email pageId cids).2 = .ok v ∧
      v.id = ex.id ∧ v.token = ex.token ∧ v.acceptedAt = ex.acceptedAt ∧
      v.componentIds = componentIdsOf db ex.id := by
  have hres : upsertEmailSubscription db now tk email pageId cids =
      (db, .ok
        { id := ex.id
          pageId := ex.pageId
          pageName := pg.title
          pageSlug := pg.slug
          customDomain := pg.customDomain
          channelType := ex.channelType
          email := ex.email
          webhookUrl := none
          channelConfig := none
          token := ex.token
          acceptedAt := ex.acceptedAt
          unsubscribedAt := none
          componentIds := componentIdsOf db ex.id }) := by
    have hvalid2 : ¬(¬cids = [] ∧
        ¬(validComponentIds db pageId cids).length = cids.length) := by
      intro hc
      exact hvalid ⟨fun h => hc.1 (List.length_eq_zero.mp h), hc.2⟩
    simp [upsertEmailSubscription, hpg, hvalid2, hfind, hacc]
  rw [hres]
  exact ⟨rfl, _, rfl, rfl, rfl, rfl, rfl⟩

theorem c5_upsert_accepted_unchanged_witness :
    (upsertEmailSubscription exDb 1000 "fresh" "A@X.com" 1 []).1 = exDb ∧
    ∃ v, (upsertEmailSubscription exDb 1000 "fresh" "A@X.com" 1 []).2 =
        .ok v ∧
      v.id = exRowA.id ∧ v.token = exRowA.token ∧
      v.acceptedAt = exRowA.acceptedAt ∧
      v.componentIds = componentIdsOf exDb exRowA.id := by
  exact c5_upsert_accepted_unchanged exDb 1000 "fresh" "A@X.com" 1 []
    exPage exRowA 5 (by decide) (by decide) (by decide) (by decide)

/-- C6: when every email subscription row for (identity, page) is
unsubscribed, upsertEmailSubscription appends a brand-new row (fresh
token, acceptedAt null, expiresAt = now + 7 days) and every old row —
including its unsubscribedAt — is carried over unchanged. -/
theorem c6_upsert_after_unsubscribe_new_row (db : DB) (now : Nat)
    (tk : String) (email : String) (pageId : Nat) (cids : List Nat)
    (pg : PageRow)
    (hpg : db.pages.find? (fun p => decide (p.id = pageId)) = some pg)
    (hvalid : ¬(cids.length ≠ 0 ∧
      (validComponentIds db pageId cids).length ≠ cids.length))
    (huns : ∀ r ∈ db.subscribers, r.email = some (lowerStr email) →
      r.pageId = pageId → r.channelType = "email" →
      r.unsubscribedAt ≠ none) :
    (upsertEmailSubscription db now tk email pageId cids).1.subscribers =
      db.subscribers ++
        [{ id := db.nextId
           email := some (lowerStr email)
           pageId := pageId
           channelType := "email"
           webhookUrl := none
           channelConfig := none
           token := some tk
           acceptedAt := none
           expiresAt := some (now + VERIFICATION_EXPIRY_MS)
           unsubscribedAt := none
           createdAt := some now
           updatedAt := some now }] ∧
    (∀ r ∈ db.subscribers,
      r ∈ (upsertEmailSubscription db now tk email pageId cids).1.subscribers) ∧
    ∃ v, (upsertEmailSubscription db now tk email pageId cids).2 = .ok v ∧
      v.id = db.nextId ∧ v.token = some tk ∧ v.acceptedAt = none := by
  have hfind : findActiveEmail db (lowerStr email) pageId = none := by
    unfold findActiveEmail
    rw [List.find?_eq_none]
    intro r hr
    simp only [decide_eq_true_eq, not_and]
    intro he hp hc
    exact huns r hr he hp hc
  have hres : (upsertEmailSubscription db now tk email pageId cids).1 =
      { db with
          subscribers := db.subscribers ++
            [{ id := db.nextId
               email := some (lowerStr email)
               pageId := pageId
               channelType := "email"
               webhookUrl := none
               channelConfig := none
               token := some tk
               acceptedAt := none
               expiresAt := some (now + VERIFICATION_EXPIRY_MS)
               unsubscribedAt := none
               createdAt := some now
               updatedAt := some now }]
          subComponents := db.subComponents ++
            cids.map (fun c => (db.nextId, c))
          nextId := db.nextId + 1 } := by
    have hvalid2 : ¬(¬cids = [] ∧
        ¬(validComponentIds db pageId cids).length = cids.length) := by
      intro hc
      exact hvalid ⟨fun h => hc.1 (List.length_eq_zero.mp h), hc.2⟩
    simp [upsertEmailSubscription, hpg, hvalid2, hfind]
  refine ⟨by rw [hres], ?_, ?_⟩
  · intro r hr
    rw [hres]
    exact List.mem_append_left _ hr
  · have hres2 : (upsertEmailSubscription db now tk email pageId cids).2 =
        .ok
          { id := db.nextId
            pageId := pageId
            pageName := pg.title
            pageSlug := pg.slug
            customDomain := pg.customDomain
            channelType := "email"
            email := some (lowerStr email)
            webhookUrl := none
            channelConfig := none
            token := some tk
            acceptedAt := none
            unsubscribedAt := none
            componentIds := cids } := by
      have hvalid2 : ¬(¬cids = [] ∧
          ¬(validComponentIds db pageId cids).length = cids.length) := by
        intro hc
        exact hvalid ⟨fun h => hc.1 (List.length_eq_zero.mp h), hc.2⟩
      simp [upsertEmailSubscription, hpg, hvalid2, hfind]
    rw [hres2]
    exact ⟨_, rfl, rfl, rfl, rfl⟩

/-- Fixture: a store whose only subscriber row is unsubscribed. -/
def exDbC6 : DB :=
  { pages := [exPage], components := [exComp1, exComp2],
    subscribers := [{ exRowA with unsubscribedAt := some 9 }],
    subComponents := [], nextId := 500 }

theorem c6_upsert_after_unsubscribe_new_row_witness :
    (upsertEmailSubscription exDbC6 1000 "fresh" "A@X.com" 1 [10]).1.subscribers =
      exDbC6.subscribers ++
        [{ id := 500
           email := some "a@x.com"
           pageId := 1
           channelType := "email"
           webhookUrl := none
           channelConfig := none
           token := some "fresh"
           acceptedAt := none
           expiresAt := some (1000 + VERIFICATION_EXPIRY_MS)
           unsubscribedAt := none
           createdAt := some 1000
           updatedAt := some 1000 }] ∧
    (∀ r ∈ exDbC6.subscribers,
      r ∈ (upsertEmailSubscription exDbC6 1000 "fresh" "A@X.com" 1 [10]).1.subscribers) ∧
    ∃ v, (upsertEmailSubscription exDbC6 1000 "fresh" "A@X.com" 1 [10]).2 = .ok v ∧
      v.id = 500 ∧ v.token = some "fresh" ∧ v.acceptedAt = none := by
  have h := c6_upsert_after_unsubscribe_new_row exDbC6 1000 "fresh"
    "A@X.com" 1 [10] exPage (by decide) (by decide) (by decide)
  exact h

theorem mem_merge_links (cur b : List Nat) (c : Nat) :
    c ∈ cur ++ ((dedupFirst (cur ++ b)).filter (fun i => !cur.contains i)) ↔
      c ∈ cur ∨ c ∈ b := by
  simp [List.mem_append, List.mem_filter, mem_dedupFirst]
  tauto

theorem merge_newIds_nil (l b : List Nat) (h : ∀ x ∈ b, x ∈ l) :
    (dedupFirst (l ++ b)).filter (fun i => !l.contains i) = [] := by
  rw [List.filter_eq_nil_iff]
  intro a ha
  rw [mem_dedupFirst] at ha
  rcases List.mem_append.mp ha with h1 | h1
  · simp [h1]
  · simp [h a h1]

theorem updateRow_eq_self (db : DB) (sid : Nat)
    (f : SubscriberRow → SubscriberRow)
    (h : ∀ r ∈ db.subscribers, r.id = sid → f r = r) :
    updateRow db sid f = db := by
  unfold updateRow
  have hm : db.subscribers.map (fun r => if r.id = sid then f r else r) =
      db.subscribers := by
    calc db.subscribers.map (fun r => if r.id = sid then f r else r)
        = db.subscribers.map id := by
          apply List.map_congr_left
          intro r hr
          by_cases hid : r.id = sid
          · simp [hid, h r hr hid]
          · simp [hid]
      _ = db.subscribers := List.map_id _
  rw [hm]

/-- The merge branch of upsertEmailSubscription (service.ts lines
112-148) as one equation: pending row found, new components appended,
expiry refreshed, projection carries the merged set. -/
theorem upsert_pending_eq (db : DB) (now : Nat) (tk : String)
    (email : String) (pageId : Nat) (cids : List Nat) (pg : PageRow)
    (ex : SubscriberRow)
    (hpg : db.pages.find? (fun p => decide (p.id = pageId)) = some pg)
    (hvalid : ¬(cids.length ≠ 0 ∧
      (validComponentIds db pageId cids).length ≠ cids.length))
    (hfind : findActiveEmail db (lowerStr email) pageId = some ex)
    (hacc : ex.acceptedAt = none) :
    upsertEmailSubscription db now tk email pageId cids =
      (updateRow { db with subComponents := db.subComponents ++ ((dedupFirst (componentIdsOf db ex.id ++ cids)).filter (fun i => !(componentIdsOf db ex.id).contains i)).map (fun c => (ex.id, c)) } ex.id (fun r => { r with expiresAt := some (now + VERIFICATION_EXPIRY_MS), updatedAt := some now }),
       .ok
        { id := ex.id
          pageId := ex.pageId
          pageName := pg.title
          pageSlug := pg.slug
          customDomain := pg.customDomain
          channelType := ex.channelType
          email := ex.email
          webhookUrl := none
          channelConfig := none
          token := ex.token
          acceptedAt := none
          unsubscribedAt := none
          componentIds := dedupFirst (componentIdsOf db ex.id ++ cids) }) := by
  have hvalid2 : ¬(¬cids = [] ∧
      ¬(validComponentIds db pageId cids).length = cids.length) := by
    intro hc
    exact hvalid ⟨fun h => hc.1 (List.length_eq_zero.mp h), hc.2⟩
  simp [upsertEmailSubscription, hpg, hvalid2, hfind, hacc]

/-- C4: on an existing pending subscription, upsert keeps the row id and
token, never adds a row, unions the component set with the call's ids,
refreshes expiresAt to now + 7 days, and a repeated call with the same
inputs is idempotent (state exactly unchanged, componentIds converged to
the union). -/
theorem c4_upsert_pending_merge (db : DB) (now : Nat) (tk tk2 : String)
    (email : String) (pageId : Nat) (cids : List Nat) (pg : PageRow)
    (ex : SubscriberRow)
    (hpg : db.pages.find? (fun p => decide (p.id = pageId)) = some pg)
    (hvalid : ¬(cids.length ≠ 0 ∧
      (validComponentIds db pageId cids).length ≠ cids.length))
    (hfind : findActiveEmail db (lowerStr email) pageId = some ex)
    (hacc : ex.acceptedAt = none) :
    (∃ v, (upsertEmailSubscription db now tk email pageId cids).2 = .ok v ∧
      v.id = ex.id ∧ v.token = ex.token ∧
      ∀ c, c ∈ v.componentIds ↔ c ∈ componentIdsOf db ex.id ∨ c ∈ cids)
  ∧ (upsertEmailSubscription db now tk email pageId cids).1.subscribers.length
      = db.subscribers.length
  ∧ (∀ c, c ∈ componentIdsOf
        (upsertEmailSubscription db now tk email pageId cids).1 ex.id ↔
      c ∈ componentIdsOf db ex.id ∨ c ∈ cids)
  ∧ (∀ r ∈ (upsertEmailSubscription db now tk email pageId cids).1.subscribers,
      r.id = ex.id → r.expiresAt = some (now + VERIFICATION_EXPIRY_MS))
  ∧ (upsertEmailSubscription
      (upsertEmailSubscription db now tk email pageId cids).1 now tk2
      email pageId cids).1 =
      (upsertEmailSubscription db now tk email pageId cids).1
  ∧ ∃ v2, (upsertEmailSubscription
      (upsertEmailSubscription db now tk email pageId cids).1 now tk2
      email pageId cids).2 = .ok v2 ∧
      v2.id = ex.id ∧ v2.token = ex.token ∧
      ∀ c, c ∈ v2.componentIds ↔ c ∈ componentIdsOf db ex.id ∨ c ∈ cids := by
  have hres := upsert_pending_eq db now tk email pageId cids pg ex
    hpg hvalid hfind hacc
  have hlinks1 : componentIdsOf
      (upsertEmailSubscription db now tk email pageId cids).1 ex.id =
      componentIdsOf db ex.id ++
        ((dedupFirst (componentIdsOf db ex.id ++ cids)).filter
          (fun i => !(componentIdsOf db ex.id).contains i)) := by
    rw [hres]
    rw [componentIdsOf_updateRow, componentIdsOf_append, pairs_filter_map]
  refine ⟨?_, ?_, ?_, ?_, ?_⟩
  · rw [hres]
    refine ⟨_, rfl, rfl, rfl, ?_⟩
    intro c
    simp [mem_dedupFirst]
  · rw [hres]
    simp [updateRow]
  · intro c
    rw [hlinks1]
    exact mem_merge_links _ _ _
  · rw [hres]
    intro r hr hid
    simp only [updateRow, List.mem_map] at hr
    rcases hr with ⟨r0, _, rfl⟩
    by_cases h0 : r0.id = ex.id
    · simp [h0]
    · simp only [h0, if_false] at hid ⊢
  · have hpg1 : (upsertEmailSubscription db now tk email pageId
        cids).1.pages.find? (fun p => decide (p.id = pageId)) = some pg := by
      simp only [hres]
      exact hpg
    have hvalid1 : ¬(cids.length ≠ 0 ∧
        (validComponentIds (upsertEmailSubscription db now tk email pageId
          cids).1 pageId cids).length ≠ cids.length) := by
      simp only [hres]
      exact hvalid
    have hfind1 : findActiveEmail
        (upsertEmailSubscription db now tk email pageId cids).1
        (lowerStr email) pageId =
        some { ex with expiresAt := some (now + VERIFICATION_EXPIRY_MS), updatedAt := some now } := by
      simp only [hres]
      rw [findActiveEmail_updateRow _ ex.id
        (fun r => { r with expiresAt := some (now + VERIFICATION_EXPIRY_MS), updatedAt := some now })
        (fun r => ⟨rfl, rfl, rfl, rfl⟩) (lowerStr email) pageId]
      rw [findActiveEmail_subComponents, hfind]
      simp
    have hres2 := upsert_pending_eq
      ((upsertEmailSubscription db now tk email pageId cids).1) now tk2
      email pageId cids pg
      ({ ex with expiresAt := some (now + VERIFICATION_EXPIRY_MS), updatedAt := some now })
      hpg1 hvalid1 hfind1 hacc
    have hsub : ∀ x ∈ cids, x ∈ componentIdsOf
        (upsertEmailSubscription db now tk email pageId cids).1 ex.id := by
      intro x hx
      rw [hlinks1, mem_merge_links]
      exact Or.inr hx
    have hnil : (dedupFirst (componentIdsOf
        (upsertEmailSubscription db now tk email pageId cids).1 ex.id ++
          cids)).filter
        (fun i => !(componentIdsOf
          (upsertEmailSubscription db now tk email pageId
            cids).1 ex.id).contains i) = [] :=
      merge_newIds_nil _ _ hsub
    constructor
    · simp only [hres2]
      rw [hnil]
      simp only [List.map_nil, List.append_nil]
      apply updateRow_eq_self
      intro r hr hid
      simp only [hres] at hr
      simp only [updateRow, List.mem_map] at hr
      rcases hr with ⟨r0, _, rfl⟩
      by_cases h0 : r0.id = ex.id
      · simp [h0]
      · simp only [h0, if_false] at hid ⊢
    · simp only [hres2]
      refine ⟨_, rfl, rfl, rfl, ?_⟩
      intro c
      rw [mem_dedupFirst, List.mem_append, hlinks1, mem_merge_links]
      tauto

theorem c4_upsert_pending_merge_witness :
    (upsertEmailSubscription exDbPend 2000 "t1" "A@X.com" 1 []).1.subscribers.length =
      exDbPend.subscribers.length := by
  exact (c4_upsert_pending_merge exDbPend 2000 "t1" "t2" "A@X.com" 1 []
    exPage exRowPend (by decide) (by decide) (by decide) (by decide)).2.1

theorem filter_ne_then_eq_nil (l : List (Nat × Nat)) (sid : Nat) :
    (l.filter (fun x => decide (x.1 ≠ sid))).filter
      (fun x => decide (x.1 = sid)) = [] := by
  induction l with
  | nil => rfl
  | cons a t ih => by_cases h : a.1 = sid <;> simp [h, ih]

theorem filter_filter_of_imp {α : Type} (l : List α) (p q : α → Bool)
    (h : ∀ x, p x = true → q x = true) :
    (l.filter q).filter p = l.filter p := by
  induction l with
  | nil => rfl
  | cons a t ih =>
    by_cases hq : q a = true
    · rw [List.filter_cons_of_pos hq]
      by_cases hp : p a = true
      · rw [List.filter_cons_of_pos hp, List.filter_cons_of_pos hp, ih]
      · rw [List.filter_cons_of_neg (by simpa using hp),
          List.filter_cons_of_neg (by simpa using hp), ih]
    · have hp : ¬ p a = true := fun hp => hq (h a hp)
      rw [List.filter_cons_of_neg (by simpa using hq),
        List.filter_cons_of_neg (by simpa using hp), ih]

theorem filter_ne_comm (l : List (Nat × Nat)) (sid sid' : Nat)
    (h : sid' ≠ sid) :
    (l.filter (fun x => decide (x.1 ≠ sid))).filter
      (fun x => decide (x.1 = sid')) =
      l.filter (fun x => decide (x.1 = sid')) := by
  apply filter_filter_of_imp
  intro x hx
  simp only [decide_eq_true_eq] at hx ⊢
  rw [hx]
  exact h

theorem pairs_filter_ne_nil (sid sid' : Nat) (h : sid' ≠ sid)
    (ids : List Nat) :
    (ids.map (fun c => (sid, c))).filter
      (fun l => decide (l.1 = sid')) = [] := by
  induction ids with
  | nil => rfl
  | cons x xs ih => simp [Ne.symm h, ih]

/-- C8 (amended): updateSubscriptionScope raises NotFound iff the token
is unknown or the domain mismatches, NotVerified iff the found
subscription is not accepted, Unsubscribed iff it is unsubscribed, and
Validation iff componentIds is non-empty and the page components matching
it number fewer than its entries (some id foreign to the page, or a
duplicated id); each failure leaves the store unchanged, and on success
the stored association set becomes exactly the given componentIds while
other subscribers' sets are untouched. -/
theorem c8_scope_taxonomy (db : DB) (now : Nat) (token : String)
    (cids : List Nat) (domain : Option String) :
    (findByToken db token = none →
      updateSubscriptionScope db now token cids domain =
        (db, .error "Subscription not found"))
  ∧ (∀ sub pg, findByToken db token = some sub →
      pageOf db sub = some pg → domainMismatch pg domain = true →
      updateSubscriptionScope db now token cids domain =
        (db, .error "Subscription not found"))
  ∧ (∀ sub pg, findByToken db token = some sub →
      pageOf db sub = some pg → domainMismatch pg domain = false →
      sub.acceptedAt = none →
      updateSubscriptionScope db now token cids domain =
        (db, .error "Subscription not yet verified"))
  ∧ (∀ sub pg a u, findByToken db token = some sub →
      pageOf db sub = some pg → domainMismatch pg domain = false →
      sub.acceptedAt = some a → sub.unsubscribedAt = some u →
      updateSubscriptionScope db now token cids domain =
        (db, .error "Subscription is unsubscribed"))
  ∧ (∀ sub pg a, findByToken db token = some sub →
      pageOf db sub = some pg → domainMismatch pg domain = false →
      sub.acceptedAt = some a → sub.unsubscribedAt = none →
      cids ≠ [] →
      (validComponentIds db sub.pageId cids).length ≠ cids.length →
      updateSubscriptionScope db now token cids domain =
        (db, .error "Some components do not belong to this page"))
  ∧ (∀ sub pg a, findByToken db token = some sub →
      pageOf db sub = some pg → domainMismatch pg domain = false →
      sub.acceptedAt = some a → sub.unsubscribedAt = none →
      ¬(cids ≠ [] ∧
        (validComponentIds db sub.pageId cids).length ≠ cids.length) →
      componentIdsOf
          (updateSubscriptionScope db now token cids domain).1 sub.id =
        cids ∧
      (∀ sid, sid ≠ sub.id →
        componentIdsOf
            (updateSubscriptionScope db now token cids domain).1 sid =
          componentIdsOf db sid) ∧
      ∃ v, (updateSubscriptionScope db now token cids domain).2 = .ok v ∧
        v.id = sub.id ∧ v.componentIds = cids) := by
  refine ⟨?_, ?_, ?_, ?_, ?_, ?_⟩
  · intro hfind
    simp [updateSubscriptionScope, hfind]
  · intro sub pg hfind hpg hdom
    simp [updateSubscriptionScope, hfind, hpg, hdom]
  · intro sub pg hfind hpg hdom hacc
    simp [updateSubscriptionScope, hfind, hpg, hdom, hacc]
  · intro sub pg a u hfind hpg hdom hacc huns
    simp [updateSubscriptionScope, hfind, hpg, hdom, hacc, huns]
  · intro sub pg a hfind hpg hdom hacc huns hne hlen
    have hcond : (¬cids = [] ∧
        ¬(validComponentIds db sub.pageId cids).length = cids.length) :=
      ⟨hne, hlen⟩
    simp [updateSubscriptionScope, hfind, hpg, hdom, hacc, huns, hcond]
  · intro sub pg a hfind hpg hdom hacc huns hvalid
    have hvalid2 : ¬(¬cids = [] ∧
        ¬(validComponentIds db sub.pageId cids).length = cids.length) := by
      intro hc
      exact hvalid ⟨hc.1, hc.2⟩
    have hres : updateSubscriptionScope db now token cids domain =
        (updateRow { db with subComponents := db.subComponents.filter (fun l => decide (l.1 ≠ sub.id)) ++ cids.map (fun c => (sub.id, c)) } sub.id (fun r => { r with updatedAt := some now }),
         .ok
          { id := sub.id
            pageId := sub.pageId
            pageName := pg.title
            pageSlug := pg.slug
            customDomain := pg.customDomain
            channelType := sub.channelType
            email := sub.email
            webhookUrl := none
            channelConfig := none
            token := sub.token
            acceptedAt := sub.acceptedAt
            unsubscribedAt := none
            componentIds := cids }) := by
      simp [updateSubscriptionScope, hfind, hpg, hdom, hacc, huns, hvalid2]
    refine ⟨?_, ?_, ?_⟩
    · simp only [hres]
      rw [componentIdsOf_updateRow]
      unfold componentIdsOf
      simp only [List.filter_append, List.map_append]
      rw [filter_ne_then_eq_nil]
      simp only [List.map_nil, List.nil_append]
      exact pairs_filter_map sub.id cids
    · intro sid hsid
      simp only [hres]
      rw [componentIdsOf_updateRow]
      unfold componentIdsOf
      simp only [List.filter_append, List.map_append]
      rw [filter_ne_comm _ _ _ hsid, pairs_filter_ne_nil _ _ hsid]
      simp only [List.map_nil, List.append_nil]
    · simp only [hres]
      exact ⟨_, rfl, rfl, rfl⟩

/-- Fixture: accepted active subscriber on a page with components 10, 11. -/
def exDbScope : DB :=
  { pages := [exPage], components := [exComp1, exComp2],
    subscribers := [exRowA], subComponents := [], nextId := 900 }

/-- C8 counterexample: with componentIds = [10, 10] every given id
belongs to the subscription's page, yet updateSubscriptionScope raises
the Validation error — refuting "Validation iff some given componentId
does not belong to the subscription's page". -/
theorem c8_counterexample :
    (∀ i ∈ [10, 10], ∃ c ∈ exDbScope.components,
      c.id = i ∧ c.pageId = exRowA.pageId) ∧
    findByToken exDbScope "tA" = some exRowA ∧
    exRowA.acceptedAt.isSome = true ∧ exRowA.unsubscribedAt = none ∧
    (updateSubscriptionScope exDbScope 50 "tA" [10, 10] none).2 =
      .error "Some components do not belong to this page" := by
  refine ⟨by decide, by decide, by decide, by decide, ?_⟩
  rfl

theorem c8_scope_taxonomy_witness :
    componentIdsOf
      (updateSubscriptionScope exDbScope 50 "tA" [10, 11] none).1
      exRowA.id = [10, 11] := by
  exact ((c8_scope_taxonomy exDbScope 50 "tA" [10, 11] none).2.2.2.2.2
    exRowA exPage 5 (by decide) (by decide) (by decide) (by decide)
    (by decide) (by decide)).1

/-- C2: dispatchPageUpdate returns normally for every assignment of send
outcomes: the result is always `.ok`; when the page exists and matches are
found, the fan-out log is the group-wise map of `handleGroup`, so each
channel group's entry depends only on that group and its own channel's
send; an unknown channel type only skips its own group; a channel send
failure is caught into the log; and the webhook batch issues one POST per
valid subscriber regardless of the other POSTs' outcomes. -/
theorem c2_dispatch_isolation (db : DB) (w : World) (ev : PageUpdate) :
    (∃ res, dispatchPageUpdate db w ev = .ok res)
  ∧ (∀ pg, db.pages.find? (fun p => decide (p.id = ev.pageId)) = some pg →
      (matchingSubscriptions db pg ev).isEmpty = false →
      dispatchPageUpdate db w ev =
        .ok (.dispatched
          ((groupByChannel (matchingSubscriptions db pg ev)).map
            (fun g => (g.1, handleGroup w ev g.1 g.2)))))
  ∧ (∀ t subs, getChannel w t = none →
      handleGroup w ev t subs = .skippedUnknown)
  ∧ (∀ t subs send e, getChannel w t = some send →
      send subs ev = .error e →
      handleGroup w ev t subs = .failedCaught e)
  ∧ (∀ subs, (sendWebhookNotifications w subs ev).map Prod.fst =
      (subs.filter hasWebhookUrl).map (fun s => s.id)) := by
  refine ⟨?_, ?_, ?_, ?_, ?_⟩
  · unfold dispatchPageUpdate
    cases hf : db.pages.find? (fun p => decide (p.id = ev.pageId)) with
    | none => exact ⟨_, rfl⟩
    | some pg =>
      by_cases he : (matchingSubscriptions db pg ev).isEmpty = true
      · exact ⟨.noMatches, by simp [he]⟩
      · exact ⟨.dispatched
          ((groupByChannel (matchingSubscriptions db pg ev)).map
            (fun g => (g.1, handleGroup w ev g.1 g.2))), by simp [he]⟩
  · intro pg hpg hne
    simp [dispatchPageUpdate, hpg, hne]
  · intro t subs hchan
    simp [handleGroup, hchan]
  · intro t subs send e hchan hsend
    simp [handleGroup, hchan, hsend]
  · intro subs
    unfold sendWebhookNotifications
    by_cases he : (subs.filter hasWebhookUrl).isEmpty = true
    · simp [he, List.isEmpty_iff.mp he]
    · simp [he, List.map_map, Function.comp]

/-- Fixture world in which every outbound send fails. -/
def exWorldFail : World :=
  { emailBatch := fun _ _ => .error "email transport down"
    webhookPost := fun _ _ => .error "post failed" }

/-- Fixture webhook subscriptions for the C2 witness. -/
def exSubW1 : Subscription :=
  { toSubscription exPage exDb exRowA with webhookUrl := some "https://a.example" }

/-- Fixture webhook subscriptions for the C2 witness. -/
def exSubW2 : Subscription :=
  { toSubscription exPage exDb exRowB with webhookUrl := some "https://b.example" }

theorem c2_dispatch_isolation_witness :
    dispatchPageUpdate exDb exWorldFail exEvent =
      .ok (.dispatched
        ((groupByChannel (matchingSubscriptions exDb exPage exEvent)).map
          (fun g => (g.1, handleGroup exWorldFail exEvent g.1 g.2)))) ∧
    (sendWebhookNotifications exWorldFail [exSubW1, exSubW2]
        exEvent).map Prod.fst = [exRowA.id, exRowB.id] := by
  constructor
  · exact (c2_dispatch_isolation exDb exWorldFail exEvent).2.1 exPage
      (by decide) (by decide)
  · rw [(c2_dispatch_isolation exDb exWorldFail exEvent).2.2.2.2
      [exSubW1, exSubW2]]
    decide

/-- The identity keyed by the store's partial unique indexes
(page_subscribers.ts lines 45-58): LOWER(email) for the email channel,
the webhook URL for the webhook channel. -/
def activeIdentity (r : SubscriberRow) : Option String :=
  if r.channelType = "email" then r.email.map lowerStr else r.webhookUrl

/-- The claimed invariant: at most one row with `unsubscribedAt` null
per (case-insensitive identity, pageId, channelType); identities absent
(NULL) are not constrained, matching SQL unique-index semantics. -/
def UniqueActive (db : DB) : Prop :=
  ∀ r1 ∈ db.subscribers, ∀ r2 ∈ db.subscribers,
    r1.unsubscribedAt = none → r2.unsubscribedAt = none →
    r1.channelType = r2.channelType → r1.pageId = r2.pageId →
    activeIdentity r1 = activeIdentity r2 → activeIdentity r1 ≠ none →
    r1.id = r2.id

/-- Inductive strengthening of `UniqueActive` closed under the
operations: emails are stored lowercased (upsert inserts
`email.toLowerCase()`), and every row id is below the id source. -/
def Inv (db : DB) : Prop :=
  UniqueActive db ∧
  (∀ r ∈ db.subscribers, r.email.map lowerStr = r.email) ∧
  (∀ r ∈ db.subscribers, r.id < db.nextId)

theorem inv_transfer (db db2 : DB) (hs : db2.subscribers = db.subscribers)
    (hn : db2.nextId = db.nextId) (h : Inv db) : Inv db2 := by
  unfold Inv UniqueActive at h ⊢
  rw [hs, hn]
  exact h

theorem inv_updateRow (db : DB) (sid : Nat)
    (f : SubscriberRow → SubscriberRow)
    (hid : ∀ r, (f r).id = r.id)
    (hem : ∀ r, (f r).email = r.email)
    (hct : ∀ r, (f r).channelType = r.channelType)
    (hpid : ∀ r, (f r).pageId = r.pageId)
    (hwh : ∀ r, (f r).webhookUrl = r.webhookUrl)
    (huns : ∀ r, (f r).unsubscribedAt = none → r.unsubscribedAt = none)
    (h : Inv db) : Inv (updateRow db sid f) := by
  have hai : ∀ r, activeIdentity (f r) = activeIdentity r := by
    intro r
    unfold activeIdentity
    rw [hct, hem, hwh]
  have hx : ∀ x ∈ (updateRow db sid f).subscribers,
      ∃ r0 ∈ db.subscribers, x.id = r0.id ∧ x.email = r0.email ∧
        activeIdentity x = activeIdentity r0 ∧
        x.channelType = r0.channelType ∧ x.pageId = r0.pageId ∧
        (x.unsubscribedAt = none → r0.unsubscribedAt = none) := by
    intro x hxm
    simp only [updateRow, List.mem_map] at hxm
    rcases hxm with ⟨r0, hr0, rfl⟩
    by_cases h0 : r0.id = sid
    · exact ⟨r0, hr0, by simp [h0, hid], by simp [h0, hem],
        by simp [h0, hai], by simp [h0, hct], by simp [h0, hpid],
        by simpa [h0] using huns r0⟩
    · exact ⟨r0, hr0, by simp [h0], by simp [h0], by simp [h0],
        by simp [h0], by simp [h0], by simp [h0]⟩
  refine ⟨?_, ?_, ?_⟩
  · intro r1 h1 r2 h2 hu1 hu2 hct12 hp12 hai12 hne
    rcases hx r1 h1 with ⟨r01, hm1, hid1, _, hai1, hct1, hp1, hu1t⟩
    rcases hx r2 h2 with ⟨r02, hm2, hid2, _, hai2, hct2, hp2, hu2t⟩
    rw [hid1, hid2]
    exact h.1 r01 hm1 r02 hm2 (hu1t hu1) (hu2t hu2)
      (by rw [← hct1, ← hct2]; exact hct12)
      (by rw [← hp1, ← hp2]; exact hp12)
      (by rw [← hai1, ← hai2]; exact hai12)
      (by rw [← hai1]; exact hne)
  · intro r hr
    rcases hx r hr with ⟨r0, hm0, _, hem0, _⟩
    rw [hem0]
    exact h.2.1 r0 hm0
  · intro r hr
    rcases hx r hr with ⟨r0, hm0, hid0, _⟩
    rw [hid0]
    exact h.2.2 r0 hm0

/-- The row inserted by upsertEmailSubscription's create branch
(service.ts lines 155-182). -/
def newEmailRow (db : DB) (now : Nat) (tk email : String)
    (pageId : Nat) : SubscriberRow :=
  { id := db.nextId
    email := some (lowerStr email)
    pageId := pageId
    channelType := "email"
    webhookUrl := none
    channelConfig := none
    token := some tk
    acceptedAt := none
    expiresAt := some (now + VERIFICATION_EXPIRY_MS)
    unsubscribedAt := none
    createdAt := some now
    updatedAt := some now }

theorem inv_upsert_create (db : DB) (now : Nat) (tk email : String)
    (pageId : Nat) (x : List (Nat × Nat))
    (hfind : findActiveEmail db (lowerStr email) pageId = none)
    (h : Inv db) :
    Inv { db with
      subscribers := db.subscribers ++ [newEmailRow db now tk email pageId]
      subComponents := x
      nextId := db.nextId + 1 } := by
  have hnone : ∀ r ∈ db.subscribers, ¬(r.email = some (lowerStr email) ∧
      r.pageId = pageId ∧ r.channelType = "email" ∧
      r.unsubscribedAt = none) := by
    intro r hr
    have := List.find?_eq_none.mp hfind r hr
    simpa using this
  have hainew : activeIdentity (newEmailRow db now tk email pageId) =
      some (lowerStr email) := by
    simp [activeIdentity, newEmailRow, lowerStr_idem]
  have hcontra : ∀ o ∈ db.subscribers, o.unsubscribedAt = none →
      o.channelType = "email" → o.pageId = pageId →
      activeIdentity o = some (lowerStr email) → False := by
    intro o ho hu hc hp hai
    have hoe : o.email.map lowerStr = o.email := h.2.1 o ho
    have : activeIdentity o = o.email := by
      unfold activeIdentity
      rw [if_pos hc, hoe]
    rw [this] at hai
    exact hnone o ho ⟨hai, hp, hc, hu⟩
  refine ⟨?_, ?_, ?_⟩
  · intro r1 h1 r2 h2 hu1 hu2 hctq hpq haiq hne
    simp only [List.mem_append, List.mem_singleton] at h1 h2
    rcases h1 with h1 | h1
    · rcases h2 with h2 | h2
      · exact h.1 r1 h1 r2 h2 hu1 hu2 hctq hpq haiq hne
      · subst h2
        exfalso
        refine hcontra r1 h1 hu1 ?_ ?_ ?_
        · rw [hctq]; rfl
        · rw [hpq]; rfl
        · rw [haiq, hainew]
    · subst h1
      rcases h2 with h2 | h2
      · exfalso
        refine hcontra r2 h2 hu2 ?_ ?_ ?_
        · rw [← hctq]; rfl
        · rw [← hpq]; rfl
        · rw [← haiq, hainew]
      · subst h2; rfl
  · intro r hr
    simp only [List.mem_append, List.mem_singleton] at hr
    rcases hr with hr | hr
    · exact h.2.1 r hr
    · subst hr
      simp [newEmailRow, lowerStr_idem]
  · intro r hr
    simp only [List.mem_append, List.mem_singleton] at hr
    rcases hr with hr | hr
    · exact Nat.lt_succ_of_lt (h.2.2 r hr)
    · subst hr
      exact Nat.lt_succ_self _

theorem inv_upsert (db : DB) (now : Nat) (tk email : String)
    (pageId : Nat) (cids : List Nat) (h : Inv db) :
    Inv (upsertEmailSubscription db now tk email pageId cids).1 := by
  rcases hpg : db.pages.find? (fun p => decide (p.id = pageId)) with _ | pg
  · have he : (upsertEmailSubscription db now tk email pageId cids).1 = db := by
      simp [upsertEmailSubscription, hpg]
    rw [he]
    exact h
  · by_cases hval : ¬cids = [] ∧
        ¬(validComponentIds db pageId cids).length = cids.length
    · have he : (upsertEmailSubscription db now tk email pageId cids).1 = db := by
        simp [upsertEmailSubscription, hpg, hval]
      rw [he]
      exact h
    · have hvalid : ¬(cids.length ≠ 0 ∧
          (validComponentIds db pageId cids).length ≠ cids.length) := by
        intro hc
        exact hval ⟨fun he => hc.1 (by simp [he]), hc.2⟩
      rcases hfind : findActiveEmail db (lowerStr email) pageId with _ | ex
      · have hres1 : (upsertEmailSubscription db now tk email pageId cids).1 =
            { db with
                subscribers := db.subscribers ++
                  [newEmailRow db now tk email pageId]
                subComponents := db.subComponents ++
                  cids.map (fun c => (db.nextId, c))
                nextId := db.nextId + 1 } := by
          simp [upsertEmailSubscription, hpg, hval, hfind, newEmailRow]
        rw [hres1]
        exact inv_upsert_create db now tk email pageId _ hfind h
      · by_cases hacc : ex.acceptedAt.isSome = true
        · have he : (upsertEmailSubscription db now tk email pageId
              cids).1 = db := by
            simp [upsertEmailSubscription, hpg, hval, hfind, hacc]
          rw [he]
          exact h
        · have haccn : ex.acceptedAt = none :=
            Option.not_isSome_iff_eq_none.mp hacc
          have hres := upsert_pending_eq db now tk email pageId cids pg ex
            hpg hvalid hfind haccn
          have he : (upsertEmailSubscription db now tk email pageId
              cids).1 = updateRow { db with subComponents := db.subComponents ++ ((dedupFirst (componentIdsOf db ex.id ++ cids)).filter (fun i => !(componentIdsOf db ex.id).contains i)).map (fun c => (ex.id, c)) } ex.id (fun r => { r with expiresAt := some (now + VERIFICATION_EXPIRY_MS), updatedAt := some now }) := by
            rw [hres]
          rw [he]
          exact inv_updateRow _ ex.id _ (fun r => rfl) (fun r => rfl)
            (fun r => rfl) (fun r => rfl) (fun r => rfl) (fun r hn => hn)
            (inv_transfer db _ rfl rfl h)

theorem inv_verify (db : DB) (now : Nat) (token : String)
    (domain : Option String) (h : Inv db) :
    Inv (verifySubscription db now token domain).1 := by
  rcases hf : findByToken db token with _ | sub
  · have he : (verifySubscription db now token domain).1 = db := by
      simp [verifySubscription, hf]
    rw [he]
    exact h
  · rcases hp : pageOf db sub with _ | pg
    · have he : (verifySubscription db now token domain).1 = db := by
        simp [verifySubscription, hf, hp]
      rw [he]
      exact h
    · by_cases h1 : domainMismatch pg domain = true
      · have he : (verifySubscription db now token domain).1 = db := by
          simp [verifySubscription, hf, hp, h1]
        rw [he]
        exact h
      · have h1f : domainMismatch pg domain = false := by simpa using h1
        by_cases h2 : sub.acceptedAt.isSome = true
        · have he : (verifySubscription db now token domain).1 = db := by
            simp [verifySubscription, hf, hp, h1f, h2]
          rw [he]
          exact h
        · have h2f : sub.acceptedAt = none :=
            Option.not_isSome_iff_eq_none.mp h2
          by_cases h3 : (match sub.expiresAt with
              | some e => decide (e < now)
              | none => false) = true
          · have he : (verifySubscription db now token domain).1 = db := by
              simp [verifySubscription, hf, hp, h1f, h2f, h3]
            rw [he]
            exact h
          · have h3f : (match sub.expiresAt with
                | some e => decide (e < now)
                | none => false) = false := by simpa using h3
            have he : (verifySubscription db now token domain).1 =
                updateRow db sub.id (fun r => { r with acceptedAt := some now, updatedAt := some now }) := by
              simp [verifySubscription, hf, hp, h1f, h2f, h3f]
            rw [he]
            exact inv_updateRow db sub.id _ (fun r => rfl) (fun r => rfl)
              (fun r => rfl) (fun r => rfl) (fun r => rfl)
              (fun r hn => hn) h

theorem inv_updateScope (db : DB) (now : Nat) (token : String)
    (cids : List Nat) (domain : Option String) (h : Inv db) :
    Inv (updateSubscriptionScope db now token cids domain).1 := by
  rcases hf : findByToken db token with _ | sub
  · have he : (updateSubscriptionScope db now token cids domain).1 = db := by
      simp [updateSubscriptionScope, hf]
    rw [he]
    exact h
  · rcases hp : pageOf db sub with _ | pg
    · have he : (updateSubscriptionScope db now token cids
          domain).1 = db := by
        simp [updateSubscriptionScope, hf, hp]
      rw [he]
      exact h
    · by_cases h1 : domainMismatch pg domain = true
      · have he : (updateSubscriptionScope db now token cids
            domain).1 = db := by
          simp [updateSubscriptionScope, hf, hp, h1]
        rw [he]
        exact h
      · have h1f : domainMismatch pg domain = false := by simpa using h1
        by_cases h2 : sub.acceptedAt.isNone = true
        · have he : (updateSubscriptionScope db now token cids
              domain).1 = db := by
            simp [updateSubscriptionScope, hf, hp, h1f, h2]
          rw [he]
          exact h
        · have h2f : sub.acceptedAt.isNone = false :=
            Bool.eq_false_iff.mpr h2
          by_cases h3 : sub.unsubscribedAt.isSome = true
          · have he : (updateSubscriptionScope db now token cids
                domain).1 = db := by
              simp [updateSubscriptionScope, hf, hp, h1f, h2f, h3]
            rw [he]
            exact h
          · have h3f : sub.unsubscribedAt.isSome = false :=
              Bool.eq_false_iff.mpr h3
            by_cases hval : ¬cids = [] ∧
                ¬(validComponentIds db sub.pageId cids).length = cids.length
            · have he : (updateSubscriptionScope db now token cids
                  domain).1 = db := by
                simp [updateSubscriptionScope, hf, hp, h1f, h2f, h3f, hval]
              rw [he]
              exact h
            · have he : (updateSubscriptionScope db now token cids
                  domain).1 =
                  updateRow { db with subComponents := db.subComponents.filter (fun l => decide (l.1 ≠ sub.id)) ++ cids.map (fun c => (sub.id, c)) } sub.id (fun r => { r with updatedAt := some now }) := by
                simp [updateSubscriptionScope, hf, hp, h1f, h2f, h3f, hval]
              rw [he]
              exact inv_updateRow _ sub.id _ (fun r => rfl) (fun r => rfl)
                (fun r => rfl) (fun r => rfl) (fun r => rfl)
                (fun r hn => hn) (inv_transfer db _ rfl rfl h)

theorem inv_unsubscribe (db : DB) (now : Nat) (token : String)
    (domain : Option String) (h : Inv db) :
    Inv (unsubscribe db now token domain).1 := by
  rcases hf : findByToken db token with _ | sub
  · have he : (unsubscribe db now token domain).1 = db := by
      simp [unsubscribe, hf]
    rw [he]
    exact h
  · rcases hp : pageOf db sub with _ | pg
    · have he : (unsubscribe db now token domain).1 = db := by
        simp [unsubscribe, hf, hp]
      rw [he]
      exact h
    · by_cases h1 : domainMismatch pg domain = true
      · have he : (unsubscribe db now token domain).1 = db := by
          simp [unsubscribe, hf, hp, h1]
        rw [he]
        exact h
      · have h1f : domainMismatch pg domain = false := by simpa using h1
        by_cases h2 : sub.unsubscribedAt.isSome = true
        · have he : (unsubscribe db now token domain).1 = db := by
            simp [unsubscribe, hf, hp, h1f, h2]
          rw [he]
          exact h
        · have h2f : sub.unsubscribedAt.isSome = false :=
            Bool.eq_false_iff.mpr h2
          have he : (unsubscribe db now token domain).1 =
              updateRow db sub.id (fun r => { r with unsubscribedAt := some now, updatedAt := some now }) := by
            simp [unsubscribe, hf, hp, h1f, h2f]
          rw [he]
          exact inv_updateRow db sub.id _ (fun r => rfl) (fun r => rfl)
            (fun r => rfl) (fun r => rfl) (fun r => rfl)
            (fun r hn => Option.noConfusion hn) h

theorem upsert_ok_keeps_active (db : DB) (now : Nat) (tk email : String)
    (pageId : Nat) (cids : List Nat) (db1 : DB) (v : Subscription)
    (h : upsertEmailSubscription db now tk email pageId cids =
      (db1, .ok v)) :
    ∃ r, findActiveEmail db1 (lowerStr email) pageId = some r := by
  rcases hpg : db.pages.find? (fun p => decide (p.id = pageId)) with _ | pg
  · have he : upsertEmailSubscription db now tk email pageId cids =
        (db, .error ("Page " ++ toString pageId ++ " not found")) := by
      simp [upsertEmailSubscription, hpg]
    rw [he] at h
    exact absurd (congrArg Prod.snd h) (by simp)
  · by_cases hval : ¬cids = [] ∧
        ¬(validComponentIds db pageId cids).length = cids.length
    · have he : (upsertEmailSubscription db now tk email pageId cids).2 =
          .error (invalidComponentsMsg (validComponentIds db pageId cids)
            cids) := by
        simp [upsertEmailSubscription, hpg, hval]
      rw [h] at he
      exact absurd he (by simp)
    · have hvalid : ¬(cids.length ≠ 0 ∧
          (validComponentIds db pageId cids).length ≠ cids.length) := by
        intro hc
        exact hval ⟨fun hee => hc.1 (by simp [hee]), hc.2⟩
      rcases hfind : findActiveEmail db (lowerStr email) pageId with _ | ex
      · have hres1 : (upsertEmailSubscription db now tk email pageId
            cids).1 = { db with
              subscribers := db.subscribers ++
                [newEmailRow db now tk email pageId]
              subComponents := db.subComponents ++
                cids.map (fun c => (db.nextId, c))
              nextId := db.nextId + 1 } := by
          simp [upsertEmailSubscription, hpg, hval, hfind, newEmailRow]
        have hdb1 : db1 = { db with
            subscribers := db.subscribers ++
              [newEmailRow db now tk email pageId]
            subComponents := db.subComponents ++
              cids.map (fun c => (db.nextId, c))
            nextId := db.nextId + 1 } := by
          rw [← hres1, h]
        refine ⟨newEmailRow db now tk email pageId, ?_⟩
        rw [hdb1]
        unfold findActiveEmail
        have hfl : List.find? (fun r : SubscriberRow =>
            decide (r.email = some (lowerStr email) ∧ r.pageId = pageId ∧
              r.channelType = "email" ∧ r.unsubscribedAt = none))
            db.subscribers = none := hfind
        rw [List.find?_append, hfl]
        simp [newEmailRow]
      · by_cases hacc : ex.acceptedAt.isSome = true
        · have he : (upsertEmailSubscription db now tk email pageId
              cids).1 = db := by
            simp [upsertEmailSubscription, hpg, hval, hfind, hacc]
          have hdb1 : db1 = db := by rw [← he, h]
          rw [hdb1]
          exact ⟨ex, hfind⟩
        · have haccn : ex.acceptedAt = none :=
            Option.not_isSome_iff_eq_none.mp hacc
          have hres := upsert_pending_eq db now tk email pageId cids pg ex
            hpg hvalid hfind haccn
          have hdb1 : db1 = updateRow { db with subComponents := db.subComponents ++ ((dedupFirst (componentIdsOf db ex.id ++ cids)).filter (fun i => !(componentIdsOf db ex.id).contains i)).map (fun c => (ex.id, c)) } ex.id (fun r => { r with expiresAt := some (now + VERIFICATION_EXPIRY_MS), updatedAt := some now }) := by
            rw [h] at hres
            exact congrArg Prod.fst hres
          refine ⟨{ ex with expiresAt := some (now + VERIFICATION_EXPIRY_MS), updatedAt := some now }, ?_⟩
          rw [hdb1]
          rw [findActiveEmail_updateRow _ ex.id
            (fun r => { r with expiresAt := some (now + VERIFICATION_EXPIRY_MS), updatedAt := some now })
            (fun r => ⟨rfl, rfl, rfl, rfl⟩) (lowerStr email) pageId]
          rw [findActiveEmail_subComponents, hfind]
          simp

theorem upsert_existing_length (db : DB) (now : Nat) (tk email : String)
    (pageId : Nat) (cids : List Nat) (ex : SubscriberRow)
    (hfind : findActiveEmail db (lowerStr email) pageId = some ex) :
    (upsertEmailSubscription db now tk email pageId
      cids).1.subscribers.length = db.subscribers.length := by
  rcases hpg : db.pages.find? (fun p => decide (p.id = pageId)) with _ | pg
  · have he : (upsertEmailSubscription db now tk email pageId cids).1 =
        db := by
      simp [upsertEmailSubscription, hpg]
    rw [he]
  · by_cases hval : ¬cids = [] ∧
        ¬(validComponentIds db pageId cids).length = cids.length
    · have he : (upsertEmailSubscription db now tk email pageId cids).1 =
          db := by
        simp [upsertEmailSubscription, hpg, hval]
      rw [he]
    · have hvalid : ¬(cids.length ≠ 0 ∧
          (validComponentIds db pageId cids).length ≠ cids.length) := by
        intro hc
        exact hval ⟨fun hee => hc.1 (by simp [hee]), hc.2⟩
      by_cases hacc : ex.acceptedAt.isSome = true
      · have he : (upsertEmailSubscription db now tk email pageId
            cids).1 = db := by
          simp [upsertEmailSubscription, hpg, hval, hfind, hacc]
        rw [he]
      · have haccn : ex.acceptedAt = none :=
          Option.not_isSome_iff_eq_none.mp hacc
        have hres := upsert_pending_eq db now tk email pageId cids pg ex
          hpg hvalid hfind haccn
        have he : (upsertEmailSubscription db now tk email pageId
            cids).1 = updateRow { db with subComponents := db.subComponents ++ ((dedupFirst (componentIdsOf db ex.id ++ cids)).filter (fun i => !(componentIdsOf db ex.id).contains i)).map (fun c => (ex.id, c)) } ex.id (fun r => { r with expiresAt := some (now + VERIFICATION_EXPIRY_MS), updatedAt := some now }) := by
          rw [hres]
        rw [he]
        simp [updateRow]

/-- C3: lifecycle operations preserve the uniqueness invariant: `Inv`
packages "at most one active row per (case-insensitive identity, pageId,
channelType)" (`UniqueActive`) with its inductive companions (emails are
stored lowercased; row ids are below the id source), and each of upsert /
verify / updateScope / unsubscribe maps an `Inv` store to an `Inv` store;
moreover two upserts whose emails agree up to letter case never leave a
second row: after the first succeeds, the second leaves the row count
unchanged. -/
theorem c3_unique_active_invariant :
    (∀ db now tk email pageId cids, Inv db →
      Inv (upsertEmailSubscription db now tk email pageId cids).1)
  ∧ (∀ db now token domain, Inv db →
      Inv (verifySubscription db now token domain).1)
  ∧ (∀ db now token cids domain, Inv db →
      Inv (updateSubscriptionScope db now token cids domain).1)
  ∧ (∀ db now token domain, Inv db →
      Inv (unsubscribe db now token domain).1)
  ∧ (∀ db db1 now1 now2 tk1 tk2 e1 e2 pageId c1 c2 v1,
      upsertEmailSubscription db now1 tk1 e1 pageId c1 = (db1, .ok v1) →
      lowerStr e2 = lowerStr e1 →
      (upsertEmailSubscription db1 now2 tk2 e2 pageId
        c2).1.subscribers.length = db1.subscribers.length) := by
  refine ⟨?_, ?_, ?_, ?_, ?_⟩
  · intro db now tk email pageId cids h
    exact inv_upsert db now tk email pageId cids h
  · intro db now token domain h
    exact inv_verify db now token domain h
  · intro db now token cids domain h
    exact inv_updateScope db now token cids domain h
  · intro db now token domain h
    exact inv_unsubscribe db now token domain h
  · intro db db1 now1 now2 tk1 tk2 e1 e2 pageId c1 c2 v1 h1 heq
    obtain ⟨r, hr⟩ := upsert_ok_keeps_active db now1 tk1 e1 pageId c1
      db1 v1 h1
    have hr2 : findActiveEmail db1 (lowerStr e2) pageId = some r := by
      rw [heq]
      exact hr
    exact upsert_existing_length db1 now2 tk2 e2 pageId c2 r hr2

theorem c3_unique_active_invariant_witness :
    Inv (upsertEmailSubscription exDb 1000 "fresh" "new@x.com" 1 []).1 := by
  refine c3_unique_active_invariant.1 exDb 1000 "fresh" "new@x.com" 1 [] ?_
  unfold Inv UniqueActive
  refine ⟨?_, ?_, ?_⟩ <;> decide

end OpenStatus
